import Mathlib

/-!
Shallow embedding of the control logic of `application.py` (class `Pi_Monitor`)
from the PIOLED repository: the fan hysteresis controller, the display power
state machine, the PIR motion loop, the camera-diff motion detector, the
status-indicator mappers and the main monitor loop tick.  Python floats from
time and temperature readings are embedded as rationals, file sizes as
naturals, and the fan PWM reading as an integer with the sentinel -1.
-/

namespace PIOLED

/-! ### Fan hysteresis controller (run_monitor_loop, lines 795-840) -/

/-- The fan controller state kept across loop iterations: `limit_engaged`
embeds the Python variable `last_fan_pwm_limit` (0 or 1) and `duty` embeds
`last_fan_pwm`. -/
structure FanState where
  limit_engaged : Bool
  duty : Nat
deriving Repr, DecidableEq

/-- Embeds `temp_threshold_high = 50`. -/
def temp_threshold_high : ℚ := 50

/-- Embeds `temp_threshold_low = 40`. -/
def temp_threshold_low : ℚ := 40

/-- Embeds `max_pwm = 255`. -/
def max_pwm : Nat := 255

/-- Embeds `min_pwm = 0`. -/
def min_pwm : Nat := 0

/-- One evaluation of the fan hysteresis body (lines 831-840): when the limit
is not engaged and the temperature is strictly above the high threshold, the
duty goes to `max_pwm` and the limit engages; when the limit is engaged and
the temperature is strictly below the low threshold, the duty goes to
`min_pwm` and the limit disengages; otherwise nothing changes.  The second
component is the duty command passed to `set_fan_duty`, `none` when no
command is issued. -/
def fanStep (s : FanState) (temp : ℚ) : FanState × Option Nat :=
  if s.limit_engaged = false ∧ temp > temp_threshold_high then
    ({ limit_engaged := true, duty := max_pwm }, some max_pwm)
  else if s.limit_engaged = true ∧ temp < temp_threshold_low then
    ({ limit_engaged := false, duty := min_pwm }, some min_pwm)
  else
    (s, none)

/-- One fan controller tick including the PWM-read guard (line 830): the body
runs only when `get_raspberry_fan_pwm` did not return the sentinel -1. -/
def fanTick (s : FanState) (pwm : Int) (temp : ℚ) : FanState × Option Nat :=
  if pwm ≠ -1 then fanStep s temp else (s, none)

/-- The successive fan controller states produced by a list of temperature
samples, one `fanStep` per sample. -/
def fanRun (s : FanState) : List ℚ → List FanState
  | [] => []
  | t :: ts =>
    let s1 := (fanStep s t).1
    s1 :: fanRun s1 ts

/-! ### Fan PWM reader (get_raspberry_fan_pwm, lines 198-224) -/

/-- Embeds the clamp `max(0, min(255, pwm_value))` on line 215. -/
def clampPwm (v : Int) : Int := max 0 (min 255 v)

/-- Embeds `get_raspberry_fan_pwm`: each list element is one attempted read of
the pwm1 file, `none` when the open or the int conversion raises and `some v`
when the file parses to the integer `v`.  The first successful read is clamped
into [0, 255] and returned; if every attempt fails the sentinel -1 is
returned. -/
def get_raspberry_fan_pwm : List (Option Int) → Int
  | [] => -1
  | none :: rest => get_raspberry_fan_pwm rest
  | some v :: _ => clampPwm v

/-! ### Status indicator mappers (lines 348-420) -/

/-- The four temperature bands rendered by LED 0 in `update_temperature_led`:
green, yellow, orange, red. -/
inductive TempBand
  | Cool
  | Warm
  | Hot
  | VeryHot
deriving Repr, DecidableEq

/-- Embeds `update_temperature_led` (lines 348-360) as the band it renders. -/
def update_temperature_led (temp : ℚ) : TempBand :=
  if temp < 40 then .Cool
  else if temp < 50 then .Warm
  else if temp < 60 then .Hot
  else .VeryHot

/-- The three states rendered by LED 3 in `update_system_health_led`: green,
yellow, red. -/
inductive Health
  | Normal
  | Warning
  | Critical
deriving Repr, DecidableEq

/-- Embeds `update_system_health_led` (lines 394-420) as the state it renders:
the critical conditions are tested first, then the warning conditions. -/
def update_system_health_led (temp cpu_percent mem_percent disk_percent : ℚ) : Health :=
  if temp > 70 ∨ cpu_percent > 90 ∨ mem_percent > 90 ∨ disk_percent > 95 then
    .Critical
  else if temp > 55 ∨ cpu_percent > 75 ∨ mem_percent > 80 ∨ disk_percent > 85 then
    .Warning
  else
    .Normal

/-! ### Camera-diff motion detection (_detect_motion, lines 592-612) -/

/-- Embeds the pure comparison of `_detect_motion` once both frame files
exist: `size1` and `size2` are the byte sizes of the previous and current
frames.  A zero previous size returns false before any division; otherwise
the percentage difference `|size1 - size2| / size1 * 100` is compared
strictly against `sensitivity / 10` (Python true division). -/
def detect_motion (sensitivity : ℚ) (size1 size2 : ℕ) : Bool :=
  if size1 = 0 then false
  else decide (|(size1 : ℚ) - (size2 : ℚ)| / (size1 : ℚ) * 100 > sensitivity / 10)

/-! ### Display power state machine (lines 625-639 and 700-707) -/

/-- The display power state: `hdmi_on` and `last_activity` fields of
`Pi_Monitor`, the only state touched by `_wake_hdmi_display` and
`_check_hdmi_timeout`. -/
structure DisplayState where
  hdmi_on : Bool
  last_activity : ℚ
deriving Repr, DecidableEq

/-- Embeds `self.hdmi_timeout = 60`. -/
def hdmi_timeout : ℚ := 60

/-- Embeds `_wake_hdmi_display` called at time `now`: when the display is off
it is switched on and `_set_hdmi_power(True)` is invoked; in every case
`last_activity` is refreshed to `now`.  The boolean result records whether
the power-on driver was invoked. -/
def wake_hdmi_display (s : DisplayState) (now : ℚ) : DisplayState × Bool :=
  if s.hdmi_on = false then
    ({ hdmi_on := true, last_activity := now }, true)
  else
    ({ s with last_activity := now }, false)

/-- Embeds `_check_hdmi_timeout` called at time `now`: when the display is on,
`last_activity` is positive and more than `hdmi_timeout` seconds have elapsed
since `last_activity`, the display is switched off and `_set_hdmi_power(False)`
is invoked; otherwise nothing happens.  The boolean result records whether the
power-off driver was invoked. -/
def check_hdmi_timeout (s : DisplayState) (now : ℚ) : DisplayState × Bool :=
  if s.hdmi_on = true ∧ s.last_activity > 0 ∧ now - s.last_activity > hdmi_timeout then
    ({ s with hdmi_on := false }, true)
  else
    (s, false)

/-! ### PIR motion loop (_pir_motion_loop, lines 497-530) -/

/-- The state carried across iterations of `_pir_motion_loop`: the local
variables `last_state` and `motion_start_time` plus the instance field
`last_pir_log_time`. -/
structure PirState where
  last_state : Bool
  motion_start_time : ℚ
  last_pir_log_time : ℚ
deriving Repr, DecidableEq

/-- The observable effects of one PIR loop iteration: whether
`_wake_hdmi_display` was called, whether the rate-limited motion-detected
log line was emitted, and whether the debug motion-ended log line was
emitted. -/
structure PirEffects where
  wake_invoked : Bool
  detect_logged : Bool
  ended_logged : Bool
deriving Repr, DecidableEq

/-- Embeds one iteration of the `_pir_motion_loop` body: `current_state` is
the GPIO read and `now` the current time.  On a rising edge the start time is
recorded, the detection log is emitted only when 30 seconds have passed since
the previous log, and the wake callback is always invoked.  On a falling edge
nothing is mutated except `last_state`, and the debug motion-ended log is
emitted when the recorded start time is positive and the active interval
exceeded 5 seconds.  Otherwise only `last_state` is updated. -/
def pir_motion_step (s : PirState) (current_state : Bool) (now : ℚ) :
    PirState × PirEffects :=
  if current_state = true ∧ s.last_state = false then
    let logged := decide (now - s.last_pir_log_time ≥ 30)
    ({ last_state := current_state,
       motion_start_time := now,
       last_pir_log_time := if logged then now else s.last_pir_log_time },
     { wake_invoked := true, detect_logged := logged, ended_logged := false })
  else if current_state = false ∧ s.last_state = true then
    ({ s with last_state := current_state },
     { wake_invoked := false, detect_logged := false,
       ended_logged := decide (s.motion_start_time > 0 ∧ now - s.motion_start_time > 5) })
  else
    ({ s with last_state := current_state },
     { wake_invoked := false, detect_logged := false, ended_logged := false })

/-! ### Monitor loop tick (run_monitor_loop, lines 808-878) -/

/-- The sensor readings taken at the top of each loop iteration
(lines 813-818). -/
structure SensorReads where
  cpu_temp : ℚ
  cpu_usage : ℚ
  mem_usage : ℚ
  disk_usage : ℚ
  fan_pwm : Int
  disk_activity : Bool
deriving Repr, DecidableEq

/-- The mutable state threaded through `run_monitor_loop` iterations that the
embedded tick touches: the display power state, the fan controller state and
the OLED counters. -/
structure MonitorState where
  display : DisplayState
  fan : FanState
  oled_counter : Nat
  oled_screen : Nat
deriving Repr, DecidableEq

/-- The successive phases of one `run_monitor_loop` iteration, used to record
the order in which the loop body performs its work. -/
inductive TickPhase
  | checkHdmiTimeout
  | readSensors
  | updateLeds
  | fanControl
  | oledRender
deriving Repr, DecidableEq

/-- Embeds one iteration of the `run_monitor_loop` body in source order:
(line 810) the HDMI timeout check, (813-818) the sensor reads, (821-824) the
four status-indicator LED updates, (830-840) the fan controller guarded by
the PWM sentinel, (843-875) the OLED render on every third count with the
screen index advanced modulo 4, then (877) the counter increment.  The second
component is the trace of phases in the order the body executed them. -/
def run_monitor_tick (st : MonitorState) (env : SensorReads) (now : ℚ) :
    MonitorState × List TickPhase :=
  let display1 := (check_hdmi_timeout st.display now).1
  let fan1 := (fanTick st.fan env.fan_pwm env.cpu_temp).1
  let render : Bool := st.oled_counter % 3 == 0
  let screen1 := if render then (st.oled_screen + 1) % 4 else st.oled_screen
  ({ display := display1, fan := fan1,
     oled_counter := st.oled_counter + 1, oled_screen := screen1 },
   [.checkHdmiTimeout, .readSensors, .updateLeds, .fanControl] ++
     (if render then [.oledRender] else []))

/-- Follows the wording of the loop-order claim, not the source: the fan
controller evaluation placed before the status-indicator LED updates. -/
def claimedTickPhases (oled_counter : Nat) : List TickPhase :=
  [.checkHdmiTimeout, .readSensors, .fanControl, .updateLeds] ++
    (if oled_counter % 3 == 0 then [.oledRender] else [])

/-! ### Theorems -/

/-- Claim C1: the fan hysteresis controller with thresholds high=50 and
low=40: on every evaluated tick, if the limit is not engaged and the signal
is strictly above high, the duty is set to max_pwm=255 and the limit engages;
if the limit is engaged and the signal is strictly below low, the duty is set
to min_pwm=0 and the limit disengages; in every other case both the duty and
the engagement bit are unchanged and no command is issued.  Starting
disengaged, the signal sequence [30, 60, 45, 35] yields engagement states
[false, true, true, false]. -/
theorem fan_hysteresis_spec :
    (∀ (s : FanState) (temp : ℚ), s.limit_engaged = false → temp > 50 →
      fanStep s temp = ({ limit_engaged := true, duty := 255 }, some 255)) ∧
    (∀ (s : FanState) (temp : ℚ), s.limit_engaged = true → temp < 40 →
      fanStep s temp = ({ limit_engaged := false, duty := 0 }, some 0)) ∧
    (∀ (s : FanState) (temp : ℚ), ¬(s.limit_engaged = false ∧ temp > 50) →
      ¬(s.limit_engaged = true ∧ temp < 40) →
      fanStep s temp = (s, none)) ∧
    (fanRun { limit_engaged := false, duty := 0 } [30, 60, 45, 35]).map
        FanState.limit_engaged = [false, true, true, false] := by
  refine ⟨?_, ?_, ?_, by decide⟩
  · intro s temp h1 h2
    simp only [fanStep, temp_threshold_high, max_pwm]
    rw [if_pos ⟨h1, h2⟩]
  · intro s temp h1 h2
    simp only [fanStep, temp_threshold_high, temp_threshold_low, min_pwm]
    rw [if_neg (by simp [h1]), if_pos ⟨h1, h2⟩]
  · intro s temp h1 h2
    simp only [fanStep, temp_threshold_high, temp_threshold_low]
    rw [if_neg h1, if_neg h2]

/-- Witness for fan_hysteresis_spec: from the disengaged state a signal of 60
engages the limit at full duty. -/
theorem fan_hysteresis_spec_witness :
    fanStep { limit_engaged := false, duty := 0 } 60
      = ({ limit_engaged := true, duty := 255 }, some 255) :=
  fan_hysteresis_spec.1 { limit_engaged := false, duty := 0 } 60 rfl (by norm_num)

/-- Claim C2: the display power state machine: from an OFF state a motion
event at time t switches the display on, sets last_activity to t and invokes
the power-on driver; a motion event while ON refreshes last_activity without
re-invoking the driver; once more than 60 seconds elapse after a positive
last_activity, the next timeout check switches the display off and invokes
the power-off driver; every timeout check while OFF is a no-op that changes
neither field and invokes nothing. -/
theorem display_power_state_machine (s : DisplayState) (t now later : ℚ)
    (hoff : s.hdmi_on = false) (ht : 0 < t) (helapsed : now - t > 60) :
    wake_hdmi_display s t = ({ hdmi_on := true, last_activity := t }, true) ∧
    (∀ (s1 : DisplayState) (u : ℚ), s1.hdmi_on = true →
      wake_hdmi_display s1 u = ({ s1 with last_activity := u }, false)) ∧
    check_hdmi_timeout { hdmi_on := true, last_activity := t } now
      = ({ hdmi_on := false, last_activity := t }, true) ∧
    (∀ s2 : DisplayState, s2.hdmi_on = false →
      check_hdmi_timeout s2 later = (s2, false)) := by
  refine ⟨?_, ?_, ?_, ?_⟩
  · simp only [wake_hdmi_display]
    rw [if_pos hoff]
  · intro s1 u h1
    simp only [wake_hdmi_display]
    rw [if_neg (by simp [h1])]
  · have h60 : now - t > hdmi_timeout := helapsed
    unfold check_hdmi_timeout
    rw [if_pos ⟨rfl, ht, h60⟩]
  · intro s2 h2
    simp only [check_hdmi_timeout]
    rw [if_neg (by simp [h2])]

/-- Witness for display_power_state_machine: waking from OFF at time 5, then
checking the timeout at time 100 and again at 200. -/
theorem display_power_state_machine_witness :
    wake_hdmi_display { hdmi_on := false, last_activity := 0 } 5
      = ({ hdmi_on := true, last_activity := 5 }, true) ∧
    check_hdmi_timeout { hdmi_on := true, last_activity := 5 } 100
      = ({ hdmi_on := false, last_activity := 5 }, true) := by
  have h := display_power_state_machine { hdmi_on := false, last_activity := 0 }
    5 100 200 rfl (by norm_num) (by norm_num)
  exact ⟨h.1, h.2.2.1⟩

/-- Claim C3: the Health indicator evaluates the Critical tier first: it is
Critical iff temp>70 or cpu>90 or mem>90 or disk>95; otherwise it is Warning
iff temp>55 or cpu>75 or mem>80 or disk>85; otherwise Normal.  In particular
(71,10,10,10) maps to Critical, (56,10,10,10) to Warning and (40,10,10,10)
to Normal. -/
theorem health_composite_spec :
    (∀ temp cpu mem disk : ℚ,
      (update_system_health_led temp cpu mem disk = .Critical ↔
        (temp > 70 ∨ cpu > 90 ∨ mem > 90 ∨ disk > 95)) ∧
      (update_system_health_led temp cpu mem disk = .Warning ↔
        (¬(temp > 70 ∨ cpu > 90 ∨ mem > 90 ∨ disk > 95) ∧
          (temp > 55 ∨ cpu > 75 ∨ mem > 80 ∨ disk > 85))) ∧
      (update_system_health_led temp cpu mem disk = .Normal ↔
        (¬(temp > 70 ∨ cpu > 90 ∨ mem > 90 ∨ disk > 95) ∧
          ¬(temp > 55 ∨ cpu > 75 ∨ mem > 80 ∨ disk > 85)))) ∧
    update_system_health_led 71 10 10 10 = .Critical ∧
    update_system_health_led 56 10 10 10 = .Warning ∧
    update_system_health_led 40 10 10 10 = .Normal := by
  refine ⟨?_, by decide, by decide, by decide⟩
  intro temp cpu mem disk
  unfold update_system_health_led
  split_ifs with hc hw
  · simp [hc]
  · simp [hc, hw]
  · simp [hc, hw]

/-- Witness for health_composite_spec: a temperature of 71 alone makes the
composite Critical. -/
theorem health_composite_spec_witness :
    update_system_health_led 71 10 10 10 = Health.Critical :=
  health_composite_spec.2.1

/-- Claim C4: camera-diff motion detection: whenever the previous frame has a
strictly positive size, a motion event is emitted iff the absolute size
difference as a percentage of the previous size strictly exceeds
sensitivity/10.  With sizes 1000 and 1000+X and sensitivity 30, motion is
emitted iff X > 30; at X = 30 no event is emitted. -/
theorem camera_diff_motion_spec :
    (∀ (sensitivity : ℚ) (size1 size2 : ℕ), 0 < size1 →
      (detect_motion sensitivity size1 size2 = true ↔
        |(size1 : ℚ) - (size2 : ℚ)| / (size1 : ℚ) * 100 > sensitivity / 10)) ∧
    (∀ X : ℕ, detect_motion 30 1000 (1000 + X) = true ↔ 30 < X) ∧
    detect_motion 30 1000 1030 = false := by
  refine ⟨?_, ?_, ?_⟩
  · intro sensitivity size1 size2 hpos
    rw [detect_motion, if_neg (Nat.pos_iff_ne_zero.mp hpos), decide_eq_true_iff]
  · intro X
    rw [detect_motion, if_neg (by norm_num), decide_eq_true_iff]
    push_cast
    rw [show ((1000 : ℚ) - (1000 + (X : ℚ))) = -(X : ℚ) by ring, abs_neg,
      abs_of_nonneg (by positivity)]
    rw [gt_iff_lt, show ((30 : ℚ) / 10) = 3 by norm_num, div_mul_eq_mul_div,
      lt_div_iff₀ (by norm_num)]
    constructor
    · intro h
      by_contra hx
      push_neg at hx
      have : (X : ℚ) ≤ 30 := by exact_mod_cast hx
      nlinarith
    · intro h
      have : (30 : ℚ) < (X : ℚ) := by exact_mod_cast h
      nlinarith
  · simp only [detect_motion]
    norm_num

/-- Witness for camera_diff_motion_spec: with previous size 1000 and current
size 2000 the percentage test characterizes the emitted event. -/
theorem camera_diff_motion_spec_witness :
    detect_motion 30 1000 2000 = true ↔
      |((1000 : ℕ) : ℚ) - ((2000 : ℕ) : ℚ)| / ((1000 : ℕ) : ℚ) * 100 > 30 / 10 :=
  camera_diff_motion_spec.1 30 1000 2000 (by norm_num)

/-- Claim C5: the temperature indicator is a total four-band partition:
t<40 maps to Cool, 40 ≤ t < 50 to Warm, 50 ≤ t < 60 to Hot and 60 ≤ t to
VeryHot; exactly one band applies to any t and the boundary t = 40 maps to
Warm, not Cool. -/
theorem temperature_bands_spec :
    (∀ t : ℚ,
      (update_temperature_led t = .Cool ↔ t < 40) ∧
      (update_temperature_led t = .Warm ↔ 40 ≤ t ∧ t < 50) ∧
      (update_temperature_led t = .Hot ↔ 50 ≤ t ∧ t < 60) ∧
      (update_temperature_led t = .VeryHot ↔ 60 ≤ t)) ∧
    update_temperature_led 40 = .Warm := by
  refine ⟨?_, by decide⟩
  intro t
  unfold update_temperature_led
  split_ifs with h1 h2 h3
  · have g2 : ¬ (40 : ℚ) ≤ t := not_le.mpr h1
    have g3 : ¬ (50 : ℚ) ≤ t := not_le.mpr (h1.trans (by norm_num))
    have g4 : ¬ (60 : ℚ) ≤ t := not_le.mpr (h1.trans (by norm_num))
    simp [h1, g2, g3, g4]
  · have g1 : (40 : ℚ) ≤ t := not_lt.mp h1
    have g3 : ¬ (50 : ℚ) ≤ t := not_le.mpr h2
    have g4 : ¬ (60 : ℚ) ≤ t := not_le.mpr (h2.trans (by norm_num))
    simp [h1, h2, g1, g3, g4]
  · have g1 : (50 : ℚ) ≤ t := not_lt.mp h2
    have g4 : ¬ (60 : ℚ) ≤ t := not_le.mpr h3
    simp [h1, h2, h3, g1, g4]
  · have g1 : (60 : ℚ) ≤ t := not_lt.mp h3
    simp [h1, h2, h3, g1]

/-- Witness for temperature_bands_spec: the boundary temperature 40 is in the
Warm band. -/
theorem temperature_bands_spec_witness :
    update_temperature_led 40 = TempBand.Warm :=
  temperature_bands_spec.2

/-- Claim C6: the PIR variant invokes the wake callback on every rising edge,
even when the detection log is suppressed by the once-per-30s rate limit; a
falling edge never invokes the wake callback, mutates neither the recorded
start time nor the log timestamp, and emits the debug motion-ended log
exactly when the active interval that began at a positive start time lasted
strictly longer than 5 seconds. -/
theorem pir_edge_spec (s : PirState) (now : ℚ) (hlow : s.last_state = false)
    (s1 : PirState) (now1 : ℚ) (hhigh : s1.last_state = true)
    (hstart : s1.motion_start_time > 0) :
    (pir_motion_step s true now).2.wake_invoked = true ∧
    (now - s.last_pir_log_time < 30 →
      (pir_motion_step s true now).2.detect_logged = false ∧
      (pir_motion_step s true now).2.wake_invoked = true) ∧
    (pir_motion_step s1 false now1).2.wake_invoked = false ∧
    (pir_motion_step s1 false now1).1.motion_start_time = s1.motion_start_time ∧
    (pir_motion_step s1 false now1).1.last_pir_log_time = s1.last_pir_log_time ∧
    ((pir_motion_step s1 false now1).2.ended_logged = true ↔
      now1 - s1.motion_start_time > 5) := by
  have hrise : pir_motion_step s true now
      = ({ last_state := true,
           motion_start_time := now,
           last_pir_log_time :=
             if decide (now - s.last_pir_log_time ≥ 30) then now
             else s.last_pir_log_time },
         { wake_invoked := true,
           detect_logged := decide (now - s.last_pir_log_time ≥ 30),
           ended_logged := false }) := by
    unfold pir_motion_step
    rw [if_pos ⟨rfl, hlow⟩]
  have hfall : pir_motion_step s1 false now1
      = ({ s1 with last_state := false },
         { wake_invoked := false, detect_logged := false,
           ended_logged :=
             decide (s1.motion_start_time > 0 ∧ now1 - s1.motion_start_time > 5) }) := by
    unfold pir_motion_step
    rw [if_neg (by simp), if_pos ⟨rfl, hhigh⟩]
  refine ⟨by rw [hrise], ?_, by rw [hfall], by rw [hfall], by rw [hfall], ?_⟩
  · intro hlim
    rw [hrise]
    exact ⟨by simp [not_le.mpr hlim], rfl⟩
  · rw [hfall]
    simp only [decide_eq_true_iff]
    exact and_iff_right hstart

/-- Witness for pir_edge_spec: a rising edge at time 10 with the last log at
time 0 invokes the wake callback while suppressing the log; a falling edge
at time 10 after a start at time 2 invokes nothing. -/
theorem pir_edge_spec_witness :
    (pir_motion_step ⟨false, 0, 0⟩ true 10).2.wake_invoked = true ∧
    (pir_motion_step ⟨false, 0, 0⟩ true 10).2.detect_logged = false ∧
    (pir_motion_step ⟨true, 2, 0⟩ false 10).2.wake_invoked = false := by
  have h := pir_edge_spec ⟨false, 0, 0⟩ 10 rfl ⟨true, 2, 0⟩ 10 rfl (by norm_num)
  exact ⟨h.1, (h.2.1 (by norm_num)).1, h.2.2.1⟩

/-- Claim C7: when the fan-PWM read returns the sentinel -1 the fan
controller tick is skipped entirely: no duty command is issued and the state
is unchanged; and a read whose every attempt fails does return -1. -/
theorem fan_tick_sentinel_skip :
    (∀ (s : FanState) (temp : ℚ), fanTick s (-1) temp = (s, none)) ∧
    get_raspberry_fan_pwm [none, none, none, none] = -1 := by
  refine ⟨?_, rfl⟩
  intro s temp
  simp [fanTick]

/-- Witness for fan_tick_sentinel_skip: at temperature 100 with the sentinel
the disengaged state is untouched. -/
theorem fan_tick_sentinel_skip_witness :
    fanTick { limit_engaged := false, duty := 0 } (-1) 100
      = ({ limit_engaged := false, duty := 0 }, none) :=
  fan_tick_sentinel_skip.1 { limit_engaged := false, duty := 0 } 100

/-- Claim C8 counterexample: on the very first tick the loop body updates the
status-indicator LEDs before the fan controller evaluation, so the executed
phase trace differs from the order the claim states (fan evaluation third,
indicator mapping fourth). -/
theorem loop_order_counterexample :
    (run_monitor_tick
        { display := { hdmi_on := false, last_activity := 0 },
          fan := { limit_engaged := false, duty := 0 },
          oled_counter := 0, oled_screen := 0 }
        { cpu_temp := 45, cpu_usage := 10, mem_usage := 10, disk_usage := 10,
          fan_pwm := 128, disk_activity := false } 0).2
      ≠ claimedTickPhases 0 := by decide

/-- Claim C8 (amended): in every loop iteration the phases execute in the
order: (1) display timeout check, (2) sensor reads, (3) status-indicator
mapping forwarded to the LED collaborator, (4) fan controller evaluation,
and (5) on every 3rd count an OLED render, with the screen index advanced
modulo 4 exactly when a render happens. -/
theorem loop_order_spec (st : MonitorState) (env : SensorReads) (now : ℚ) :
    ((run_monitor_tick st env now).2.indexOf TickPhase.checkHdmiTimeout = 0 ∧
     (run_monitor_tick st env now).2.indexOf TickPhase.readSensors = 1 ∧
     (run_monitor_tick st env now).2.indexOf TickPhase.updateLeds = 2 ∧
     (run_monitor_tick st env now).2.indexOf TickPhase.fanControl = 3) ∧
    (TickPhase.oledRender ∈ (run_monitor_tick st env now).2 ↔
      st.oled_counter % 3 = 0) ∧
    ((run_monitor_tick st env now).1.oled_screen =
      if st.oled_counter % 3 = 0 then (st.oled_screen + 1) % 4
      else st.oled_screen) := by
  by_cases h : st.oled_counter % 3 = 0 <;>
    refine ⟨?_, ?_, ?_⟩ <;>
    simp [run_monitor_tick, h]

/-- Witness for loop_order_spec: on the first tick the render phase is in the
trace. -/
theorem loop_order_spec_witness :
    TickPhase.oledRender ∈ (run_monitor_tick
        { display := { hdmi_on := false, last_activity := 0 },
          fan := { limit_engaged := false, duty := 0 },
          oled_counter := 0, oled_screen := 0 }
        { cpu_temp := 45, cpu_usage := 10, mem_usage := 10, disk_usage := 10,
          fan_pwm := 128, disk_activity := false } 0).2 := by
  have h := loop_order_spec
    { display := { hdmi_on := false, last_activity := 0 },
      fan := { limit_engaged := false, duty := 0 },
      oled_counter := 0, oled_screen := 0 }
    { cpu_temp := 45, cpu_usage := 10, mem_usage := 10, disk_usage := 10,
      fan_pwm := 128, disk_activity := false } 0
  exact h.2.1.mpr rfl

/-- Claim C9: for every sequence of attempted file reads,
get_raspberry_fan_pwm returns either the sentinel -1 or a value clamped into
[0, 255]; an out-of-range file content is clamped, never passed through. -/
theorem fan_pwm_range_spec :
    (∀ reads : List (Option Int),
      get_raspberry_fan_pwm reads = -1 ∨
        (0 ≤ get_raspberry_fan_pwm reads ∧ get_raspberry_fan_pwm reads ≤ 255)) ∧
    get_raspberry_fan_pwm [some 1000] = 255 ∧
    get_raspberry_fan_pwm [some (-7)] = 0 := by
  refine ⟨?_, by decide, by decide⟩
  intro reads
  induction reads with
  | nil => exact Or.inl rfl
  | cons head tail ih =>
    cases head with
    | none => exact ih
    | some v =>
      right
      simp only [get_raspberry_fan_pwm, clampPwm]
      exact ⟨le_max_left 0 _, max_le (by norm_num) (min_le_left 255 v)⟩

/-- Witness for fan_pwm_range_spec: the empty attempt list lands in the
stated range disjunction. -/
theorem fan_pwm_range_spec_witness :
    get_raspberry_fan_pwm [] = -1 ∨
      (0 ≤ get_raspberry_fan_pwm [] ∧ get_raspberry_fan_pwm [] ≤ 255) :=
  fan_pwm_range_spec.1 []

/-- Claim C10: a zero-size previous frame makes the camera-diff detector
return false before the percentage difference is ever computed, so the
division is only reached with a strictly positive previous size. -/
theorem zero_size_no_motion :
    ∀ (sensitivity : ℚ) (size2 : ℕ), detect_motion sensitivity 0 size2 = false := by
  intro sensitivity size2
  rfl

/-- Witness for zero_size_no_motion: a zero previous size with a large
current frame emits nothing. -/
theorem zero_size_no_motion_witness :
    detect_motion 30 0 5000 = false :=
  zero_size_no_motion 30 5000

end PIOLED
